import Mathlib

/-!
Verification of the environment-configuration resolution of ts-express-typeorm
(src/api/config/environment.config.ts), as a shallow embedding.

The raw process environment is modelled as an association list from string
keys to string values; an absent key is an absent entry.  JavaScript
semantics that the source relies on are embedded explicitly:
  * `jsParseInt` models `parseInt(value, 10)`, with `none` standing for NaN
    (and for a missing input value, since `parseInt(undefined, 10)` is NaN);
  * `jsStrTruthy` models truthiness of an optional string (`undefined` and
    the empty string are falsy, every other string is truthy);
  * `jsNumTruthy` models `!!n` for the result of `parseInt`;
  * `jsOrNum` / `jsOrStr` model the `x || default` idiom on those results.
Resolvers that can throw are embedded as `Except String` with the literal
error message of the source; resolvers that cannot throw are plain
functions.  The file-system check `existsSync` used by the TLS resolver is
a parameter of that resolver.
-/

/-- Modelled from the spec: the ENVIRONMENT enum imported from
`@enums/environment.enum`, whose file is not in the repository snapshot.
Per the spec (section 3, DeploymentEnvironment) it is a closed vocabulary
over development, staging, production and test. -/
inductive ENVIRONMENT where
  | development
  | staging
  | production
  | test
deriving DecidableEq

/-- Modelled from the spec: name lookup in the ENVIRONMENT string enum
(`ENVIRONMENT[name]` in the source); a recognized name yields its variant,
anything else yields `undefined`, here `none`. -/
def envOfName : String → Option ENVIRONMENT
  | "development" => some ENVIRONMENT.development
  | "staging" => some ENVIRONMENT.staging
  | "production" => some ENVIRONMENT.production
  | "test" => some ENVIRONMENT.test
  | _ => none

/-- Raw process environment: ordered key/value pairs with distinct keys. -/
abbrev RawEnv := List (String × String)

/-- Lookup of a key in the raw environment (first match). -/
def lookupRaw : RawEnv → String → Option String
  | [], _ => none
  | kv :: tl, k => if kv.1 = k then some kv.2 else lookupRaw tl k

/-- Value of the longest digit run at the head of the characters, `none`
when there is no digit at all. -/
def digitRunVal (cs : List Char) : Option Nat :=
  let ds := cs.takeWhile Char.isDigit
  if ds.isEmpty then none
  else some (ds.foldl (fun a c => a * 10 + (c.toNat - 48)) 0)

/-- `parseInt(s, 10)` on a string: skip leading whitespace, optional sign,
then the longest run of decimal digits; `none` models NaN. -/
def jsParseIntStr (s : String) : Option Int :=
  match s.toList.dropWhile Char.isWhitespace with
  | '-' :: rest => (digitRunVal rest).map (fun n => -(n : Int))
  | '+' :: rest => (digitRunVal rest).map (fun n => (n : Int))
  | cs => (digitRunVal cs).map (fun n => (n : Int))

/-- `parseInt(value, 10)` on an optional raw value; a missing value gives
NaN, exactly as `parseInt(undefined, 10)` does. -/
def jsParseInt : Option String → Option Int
  | none => none
  | some s => jsParseIntStr s

/-- `!!n` for a `parseInt` result: NaN and 0 are falsy. -/
def jsNumTruthy : Option Int → Bool
  | none => false
  | some n => decide (n ≠ 0)

/-- Truthiness of an optional string: `undefined` and `""` are falsy. -/
def jsStrTruthy : Option String → Bool
  | none => false
  | some s => decide (s ≠ "")

/-- `n || d` for a `parseInt` result: NaN and 0 fall back to the default. -/
def jsOrNum (v : Option Int) (d : Int) : Int :=
  match v with
  | none => d
  | some n => if n = 0 then d else n

/-- `value || d` for an optional string: absent and empty fall back. -/
def jsOrStr : Option String → String → String
  | none, d => d
  | some s, d => if s = "" then d else s

/-- `value || null` for an optional string: absent and empty give null. -/
def jsOrNull : Option String → Option String
  | none => none
  | some s => if s = "" then none else some s

/-- Splitting on commas, accumulating the current segment in reverse. -/
def splitCommaAux : List Char → List Char → List String
  | [], acc => [String.mk acc.reverse]
  | c :: rest, acc =>
    if c = ',' then String.mk acc.reverse :: splitCommaAux rest []
    else splitCommaAux rest (c :: acc)

/-- `s.split(',')` of JavaScript: segments between commas, in order; the
empty string yields one empty segment. -/
def jsSplitComma (s : String) : List String := splitCommaAux s.toList []

/-- `key.lastIndexOf(tok) !== -1`: the token occurs somewhere in the key. -/
def containsSub (key tok : String) : Bool :=
  (List.range (key.toList.length + 1)).any
    (fun i => tok.toList.isPrefixOf (key.toList.drop i))

/-- `argv.indexOf(tok)`: position of the first occurrence, `none` for -1. -/
def jsIndexOf (argv : List String) (tok : String) : Option Nat :=
  match argv with
  | [] => none
  | a :: tl => if a = tok then some 0 else (jsIndexOf tl tok).map (fun i => i + 1)

/-- EnvironmentConfiguration.load, environment-selection part: the element
after the first `--env` token selects the environment when it names a
recognized variant; everything else leaves the static default
`development` in place. -/
def selectEnvironment (argv : List String) : ENVIRONMENT :=
  match jsIndexOf argv "--env" with
  | none => ENVIRONMENT.development
  | some i =>
    match argv[i + 1]? with
    | none => ENVIRONMENT.development
    | some v => (envOfName v).getD ENVIRONMENT.development

/-- The element right after the first `--env` token, when both exist. -/
def argAfterEnvFlag (argv : List String) : Option String :=
  match jsIndexOf argv "--env" with
  | none => none
  | some i => argv[i + 1]?

/-- EnvironmentConfiguration.load, base-path part: the switch over the
active environment. -/
def baseOf : ENVIRONMENT → String
  | ENVIRONMENT.development => "dist"
  | ENVIRONMENT.staging => ""
  | ENVIRONMENT.production => ""
  | ENVIRONMENT.test => "dist"

/-- Modelled from the spec: the CONTENT_MIME_TYPE enum from
`@enums/mime-type.enum`, whose file is not in the repository snapshot.
Per the source doc comment and the spec, the supported content types are
exactly these three, each enum key mapping to itself. -/
def CONTENT_MIME_TYPE : List String :=
  ["application/json", "application/vnd.api+json", "multipart/form-data"]

/-- The contentType resolver. -/
def contentType (value : Option String) : Except String String :=
  if jsStrTruthy value = true ∧ CONTENT_MIME_TYPE.contains (value.getD "") = false then
    Except.error ("CONTENT_TYPE bad value. Supported Content-Type must be one of "
      ++ String.intercalate "," CONTENT_MIME_TYPE)
  else
    Except.ok (jsOrStr value "application/json")

/-- The jwtExpirationInterval resolver. -/
def jwtExpirationInterval (value : Option String) : Except String Int :=
  if jsStrTruthy value = false then
    Except.error "JWT_EXPIRATION_MINUTES not found. Please fill this value in your .env file to indicate the life duration of JSON web token."
  else
    match jsParseInt value with
    | none => Except.error "JWT_EXPIRATION_MINUTES bad value. Expiration value must be a duration expressed as a number"
    | some n => Except.ok n

/-- The port resolver: validates numerically but returns the raw value. -/
def port (value : Option String) : Except String (Option String) :=
  if jsStrTruthy value = true ∧ jsParseInt value = none then
    Except.error "PORT bad value. Port value must be a number"
  else
    Except.ok value

/-- Resolved image-resize size buckets. -/
structure ResizeSizes where
  xs : Int
  sm : Int
  md : Int
  lg : Int
  xl : Int
deriving DecidableEq

/-- Resolved image-resize section. -/
structure ResizeConfig where
  isActive : Bool
  master : String
  scale : String
  sizes : ResizeSizes
deriving DecidableEq

/-- The resize resolver (never throws). -/
def resize (raw : RawEnv) : ResizeConfig :=
  { isActive := jsNumTruthy (jsParseInt (lookupRaw raw "RESIZE_IS_ACTIVE"))
    master := jsOrStr (lookupRaw raw "RESIZE_PATH_MASTER") "master-copy"
    scale := jsOrStr (lookupRaw raw "RESIZE_PATH_SCALE") "rescale"
    sizes :=
      { xs := jsOrNum (jsParseInt (lookupRaw raw "RESIZE_SIZE_XS")) 280
        sm := jsOrNum (jsParseInt (lookupRaw raw "RESIZE_SIZE_SM")) 320
        md := jsOrNum (jsParseInt (lookupRaw raw "RESIZE_SIZE_MD")) 768
        lg := jsOrNum (jsParseInt (lookupRaw raw "RESIZE_SIZE_LG")) 1024
        xl := jsOrNum (jsParseInt (lookupRaw raw "RESIZE_SIZE_XL")) 1366 } }

/-- Resolved TLS section; `none` models null. -/
structure SslConfig where
  isActive : Bool
  key : Option String
  cert : Option String
deriving DecidableEq

/-- The ssl resolver; `fsExists` stands for `existsSync` on disk, applied
to the raw optional path exactly as the source applies it. -/
def ssl (isActive key cert : Option String) (fsExists : Option String → Bool) :
    Except String SslConfig :=
  let is := jsNumTruthy (jsParseInt isActive)
  if is = true ∧ fsExists key = false then
    Except.error "HTTPS_KEY bad value or private key not found. Please check your .env file configuration."
  else if is = true ∧ fsExists cert = false then
    Except.error "HTTPS_CERT bad value or SSL certificate not found. Please check your .env file configuration."
  else
    Except.ok
      { isActive := is
        key := if is then jsOrNull key else none
        cert := if is then jsOrNull cert else none }

/-- typeormParams: keys of the raw environment whose name contains the
TYPEORM token, with their values. -/
def typeormParams (raw : RawEnv) : RawEnv :=
  raw.filter (fun kv => containsSub kv.1 "TYPEORM")

/-- Resolved database section. -/
structure TypeormConfig where
  type : Option String
  name : String
  port : Option String
  host : Option String
  database : Option String
  user : Option String
  pwd : Option String
  sync : Bool
  log : Bool
  entities : String
  migrations : String
  subscribers : String
deriving DecidableEq

/-- The typeorm resolver: validates on the extracted sub-mapping, builds the
result from the full raw environment, as the source does. -/
def typeorm (raw : RawEnv) (environment : ENVIRONMENT) (cwd base : String) :
    Except String TypeormConfig :=
  let args := typeormParams raw
  if jsStrTruthy (lookupRaw args "TYPEORM_TYPE") = false then
    Except.error "TYPEORM_TYPE not found. Please fill it in your .env file to define the database engine type."
  else if jsStrTruthy (lookupRaw args "TYPEORM_PORT") = false then
    Except.error "TYPEORM_PORT not found. Please fill it in your .env file to define the database server port."
  else if jsStrTruthy (lookupRaw args "TYPEORM_HOST") = false then
    Except.error "TYPEORM_HOST not found. Please fill it in your .env file to define the database server host."
  else if jsStrTruthy (lookupRaw args "TYPEORM_DB") = false then
    Except.error "TYPEORM_DB not found. Please fill it in your .env file to define the targeted database."
  else if jsStrTruthy (lookupRaw args "TYPEORM_USER") = false then
    Except.error "TYPEORM_USER not found. Please fill it in your .env file to define the user of the database."
  else if jsStrTruthy (lookupRaw args "TYPEORM_PWD") = false ∧ environment ≠ ENVIRONMENT.test then
    Except.error "TYPEORM_PWD not found. Please fill it in your .env file to define the password of the database."
  else
    Except.ok
      { type := lookupRaw raw "TYPEORM_TYPE"
        name := jsOrStr (lookupRaw raw "TYPEORM_NAME") "default"
        port := lookupRaw raw "TYPEORM_PORT"
        host := lookupRaw raw "TYPEORM_HOST"
        database := lookupRaw raw "TYPEORM_DB"
        user := lookupRaw raw "TYPEORM_USER"
        pwd := lookupRaw raw "TYPEORM_PWD"
        sync := if environment = ENVIRONMENT.production then false
                else jsStrTruthy (lookupRaw raw "TYPEORM_SYNC")
        log := jsStrTruthy (lookupRaw raw "TYPEORM_LOG")
        entities := cwd ++ "/" ++ base ++ "/api/models/**/*.js"
        migrations := cwd ++ "/" ++ base ++ "/migrations/**/*.js"
        subscribers := cwd ++ "/" ++ base ++ "/api/subscribers/**/*.subscriber.js" }

/-- Modelled from the spec: AUDIO_MIME_TYPE from `@enums/mime-type.enum`
(file not in the repository snapshot); the spec fixes only that each media
category expands to a closed set of concrete MIME-type strings, so
representative members stand for the real ones. -/
def AUDIO_MIME_TYPE : List String := ["audio/mpeg", "audio/mp3", "audio/ogg"]

/-- Modelled from the spec: ARCHIVE_MIME_TYPE, as for AUDIO_MIME_TYPE. -/
def ARCHIVE_MIME_TYPE : List String :=
  ["application/zip", "application/x-7z-compressed", "application/x-rar-compressed"]

/-- Modelled from the spec: DOCUMENT_MIME_TYPE, as for AUDIO_MIME_TYPE. -/
def DOCUMENT_MIME_TYPE : List String :=
  ["application/pdf", "application/msword", "text/csv"]

/-- Modelled from the spec: IMAGE_MIME_TYPE, as for AUDIO_MIME_TYPE. -/
def IMAGE_MIME_TYPE : List String :=
  ["image/bmp", "image/gif", "image/jpeg", "image/png"]

/-- Modelled from the spec: VIDEO_MIME_TYPE, as for AUDIO_MIME_TYPE. -/
def VIDEO_MIME_TYPE : List String := ["video/mp4", "video/mpeg", "video/webm"]

/-- The inline `mimes` mapping of the upload resolver, in source order.
The `list` helper of `@utils/enum.util` (also absent from the snapshot) is
the identity here because each category is already its list of values. -/
def mimes : List (String × List String) :=
  [("AUDIO", AUDIO_MIME_TYPE), ("ARCHIVE", ARCHIVE_MIME_TYPE),
   ("DOCUMENT", DOCUMENT_MIME_TYPE), ("IMAGE", IMAGE_MIME_TYPE),
   ("VIDEO", VIDEO_MIME_TYPE)]

/-- uploadParams: keys of the raw environment whose name contains the
UPLOAD token, with their values. -/
def uploadParams (raw : RawEnv) : RawEnv :=
  raw.filter (fun kv => containsSub kv.1 "UPLOAD")

/-- Resolved upload section. -/
structure UploadConfig where
  destination : String
  filesize : Int
  wildcards : List String
  maxFiles : Int
deriving DecidableEq

/-- The upload resolver (never throws). -/
def upload (raw : RawEnv) (cwd base : String) : UploadConfig :=
  let args := uploadParams raw
  let input : List String :=
    match lookupRaw args "UPLOAD_WILDCARDS" with
    | none => mimes.map (fun m => m.1)
    | some s => if s = "" then mimes.map (fun m => m.1) else jsSplitComma s
  let wildcards :=
    (input.filterMap (fun k => (mimes.find? (fun m => m.1 = k)).map (fun m => m.2))).flatten
  { destination := cwd ++ "/" ++ base ++ "/" ++ jsOrStr (lookupRaw args "UPLOAD_PATH") "public"
    filesize := jsOrNum (jsParseInt (lookupRaw args "UPLOAD_MAX_FILE_SIZE")) 1000000
    wildcards := wildcards
    maxFiles := jsOrNum (jsParseInt (lookupRaw args "UPLOAD_MAX_FILES")) 5 }

/-- Spec-side restatement of wildcard expansion, for comparison with the
resolver: keep the tokens that name a known category, in order, and
concatenate the MIME lists of those categories. -/
def specExpandWildcards (tokens : List String) : List String :=
  ((tokens.filter (fun t => (mimes.map (fun m => m.1)).contains t)).map
    (fun t => ((mimes.find? (fun m => m.1 = t)).map (fun m => m.2)).getD [])).flatten

/-- A raw environment with every required database key present and both
database flags set to the string 0. -/
def rawDbSample : RawEnv :=
  [("TYPEORM_TYPE", "mysql"), ("TYPEORM_PORT", "3306"), ("TYPEORM_HOST", "localhost"),
   ("TYPEORM_DB", "db"), ("TYPEORM_USER", "root"), ("TYPEORM_PWD", "pw"),
   ("TYPEORM_SYNC", "0"), ("TYPEORM_LOG", "0")]

/-- A raw environment with every required database key present except the
password, which is absent. -/
def rawDbNoPwd : RawEnv :=
  [("TYPEORM_TYPE", "mysql"), ("TYPEORM_PORT", "3306"), ("TYPEORM_HOST", "localhost"),
   ("TYPEORM_DB", "db"), ("TYPEORM_USER", "root")]

/-- A raw environment with every required database key present and the
schema-synchronization flag raw value set to 1. -/
def rawDbSyncOn : RawEnv :=
  [("TYPEORM_TYPE", "mysql"), ("TYPEORM_PORT", "3306"), ("TYPEORM_HOST", "localhost"),
   ("TYPEORM_DB", "db"), ("TYPEORM_USER", "root"), ("TYPEORM_PWD", "pw"),
   ("TYPEORM_SYNC", "1")]

/-! ### Helper lemmas -/

theorem lookupRaw_filter (p : String → Bool) (raw : RawEnv) (k : String) :
    lookupRaw (raw.filter (fun kv => p kv.1)) k =
      if p k = true then lookupRaw raw k else none := by
  induction raw with
  | nil => simp [lookupRaw]
  | cons kv tl ih =>
    simp only [List.filter_cons]
    by_cases hk : kv.1 = k
    · subst hk
      by_cases hp : p kv.1 <;> simp [lookupRaw, hp, ih]
    · by_cases hp : p kv.1 <;> simp [lookupRaw, hp, hk, ih]

theorem lookupRaw_typeormParams (raw : RawEnv) (k : String)
    (hk : containsSub k "TYPEORM" = true) :
    lookupRaw (typeormParams raw) k = lookupRaw raw k := by
  have h := lookupRaw_filter (fun k2 => containsSub k2 "TYPEORM") raw k
  simp only [hk, if_true] at h
  exact h

theorem lookupRaw_uploadParams (raw : RawEnv) (k : String)
    (hk : containsSub k "UPLOAD" = true) :
    lookupRaw (uploadParams raw) k = lookupRaw raw k := by
  have h := lookupRaw_filter (fun k2 => containsSub k2 "UPLOAD") raw k
  simp only [hk, if_true] at h
  exact h

theorem jsIndexOf_eq_none (argv : List String) (tok : String) (h : tok ∉ argv) :
    jsIndexOf argv tok = none := by
  induction argv with
  | nil => rfl
  | cons a tl ih =>
    simp only [List.mem_cons, not_or] at h
    have ha : ¬ a = tok := fun hh => h.1 hh.symm
    simp [jsIndexOf, ha, ih h.2]

theorem typeorm_ok_fields (raw : RawEnv) (env : ENVIRONMENT) (cwd base : String)
    (cfg : TypeormConfig) (h : typeorm raw env cwd base = Except.ok cfg) :
    cfg.sync = (if env = ENVIRONMENT.production then false
                else jsStrTruthy (lookupRaw raw "TYPEORM_SYNC"))
    ∧ cfg.log = jsStrTruthy (lookupRaw raw "TYPEORM_LOG")
    ∧ cfg.pwd = lookupRaw raw "TYPEORM_PWD" := by
  unfold typeorm at h
  by_cases c1 : jsStrTruthy (lookupRaw (typeormParams raw) "TYPEORM_TYPE") = false
  · rw [if_pos c1] at h; exact absurd h (by simp)
  rw [if_neg c1] at h
  by_cases c2 : jsStrTruthy (lookupRaw (typeormParams raw) "TYPEORM_PORT") = false
  · rw [if_pos c2] at h; exact absurd h (by simp)
  rw [if_neg c2] at h
  by_cases c3 : jsStrTruthy (lookupRaw (typeormParams raw) "TYPEORM_HOST") = false
  · rw [if_pos c3] at h; exact absurd h (by simp)
  rw [if_neg c3] at h
  by_cases c4 : jsStrTruthy (lookupRaw (typeormParams raw) "TYPEORM_DB") = false
  · rw [if_pos c4] at h; exact absurd h (by simp)
  rw [if_neg c4] at h
  by_cases c5 : jsStrTruthy (lookupRaw (typeormParams raw) "TYPEORM_USER") = false
  · rw [if_pos c5] at h; exact absurd h (by simp)
  rw [if_neg c5] at h
  by_cases c6 : jsStrTruthy (lookupRaw (typeormParams raw) "TYPEORM_PWD") = false
      ∧ env ≠ ENVIRONMENT.test
  · rw [if_pos c6] at h; exact absurd h (by simp)
  rw [if_neg c6, Except.ok.injEq] at h
  subst h
  exact ⟨rfl, rfl, rfl⟩

/-! ### Claims -/

/-- C3 counterexample: the key A_TYPEORM does not have TYPEORM as a prefix,
yet the extraction keeps it, so selection is not by prefix. -/
theorem C3_counterexample_substring_not_head :
    typeormParams [("A_TYPEORM", "x")] = [("A_TYPEORM", "x")]
    ∧ ("TYPEORM".toList.isPrefixOf "A_TYPEORM".toList) = false := by
  constructor
  · decide
  · decide

/-- C3 (amended): the database and upload sub-mappings keep exactly the raw
keys that contain the section token as a substring (not necessarily as a
prefix); keys without the token are excluded, and any key containing it is
carried through with its raw value, unvalidated. -/
theorem C3_grouped_key_extraction :
    (∀ (raw : RawEnv) (k : String),
        lookupRaw (typeormParams raw) k =
          (if containsSub k "TYPEORM" = true then lookupRaw raw k else none))
    ∧ (∀ (raw : RawEnv) (k : String),
        lookupRaw (uploadParams raw) k =
          (if containsSub k "UPLOAD" = true then lookupRaw raw k else none))
    ∧ containsSub "A_TYPEORM" "TYPEORM" = true := by
  refine ⟨?_, ?_, by decide⟩
  · intro raw k
    exact lookupRaw_filter (fun k2 => containsSub k2 "TYPEORM") raw k
  · intro raw k
    exact lookupRaw_filter (fun k2 => containsSub k2 "UPLOAD") raw k

/-- C4: with a value present after the first `--env` token, the selector
returns the recognized variant named by that value, and `development` for
an unrecognized value; without the token it returns `development`; the
recognized vocabulary is exactly the four variants. -/
theorem C4_environment_selector :
    (∀ (argv : List String) (v : String) (e : ENVIRONMENT),
        argAfterEnvFlag argv = some v → envOfName v = some e →
        selectEnvironment argv = e)
    ∧ (∀ (argv : List String) (v : String),
        argAfterEnvFlag argv = some v → envOfName v = none →
        selectEnvironment argv = ENVIRONMENT.development)
    ∧ (∀ argv : List String, "--env" ∉ argv →
        selectEnvironment argv = ENVIRONMENT.development)
    ∧ envOfName "development" = some ENVIRONMENT.development
    ∧ envOfName "staging" = some ENVIRONMENT.staging
    ∧ envOfName "production" = some ENVIRONMENT.production
    ∧ envOfName "test" = some ENVIRONMENT.test := by
  refine ⟨?_, ?_, ?_, rfl, rfl, rfl, rfl⟩
  · intro argv v e h1 h2
    unfold argAfterEnvFlag at h1
    unfold selectEnvironment
    cases hfi : jsIndexOf argv "--env" with
    | none => simp [hfi] at h1
    | some i =>
      rw [hfi] at h1
      have h1b : argv[i + 1]? = some v := h1
      show (match argv[i + 1]? with
        | none => ENVIRONMENT.development
        | some v => (envOfName v).getD ENVIRONMENT.development) = e
      rw [h1b]
      simp [h2]
  · intro argv v h1 h2
    unfold argAfterEnvFlag at h1
    unfold selectEnvironment
    cases hfi : jsIndexOf argv "--env" with
    | none => simp [hfi] at h1
    | some i =>
      rw [hfi] at h1
      have h1b : argv[i + 1]? = some v := h1
      show (match argv[i + 1]? with
        | none => ENVIRONMENT.development
        | some v => (envOfName v).getD ENVIRONMENT.development) = ENVIRONMENT.development
      rw [h1b]
      simp [h2]
  · intro argv h
    unfold selectEnvironment
    rw [jsIndexOf_eq_none argv "--env" h]

/-- C4 witness: `--env production` selects production, `--env bogus` and a
flag-free argument list select development. -/
theorem C4_environment_selector_witness :
    selectEnvironment ["node", "app", "--env", "production"] = ENVIRONMENT.production
    ∧ selectEnvironment ["node", "app", "--env", "bogus"] = ENVIRONMENT.development
    ∧ selectEnvironment ["node", "app"] = ENVIRONMENT.development :=
  ⟨C4_environment_selector.1 ["node", "app", "--env", "production"] "production"
      ENVIRONMENT.production (by decide) rfl,
   C4_environment_selector.2.1 ["node", "app", "--env", "bogus"] "bogus" (by decide) rfl,
   C4_environment_selector.2.2.1 ["node", "app"] (by decide)⟩

/-- C9: the base path segment is a function of the environment alone, with
exactly two shapes: `dist` for development and test, empty for staging and
production. -/
theorem C9_base_path_two_shapes :
    ∀ e : ENVIRONMENT,
      baseOf e = (if e = ENVIRONMENT.development ∨ e = ENVIRONMENT.test
                  then "dist" else "") := by
  intro e
  cases e <;> rfl

/-- C1 counterexample: RESIZE_SIZE_XS is present and not parseable as a
base-10 integer, yet resolution does not fail and the bucket silently gets
its default 280. -/
theorem C1_counterexample_silent_default :
    jsStrTruthy (lookupRaw [("RESIZE_SIZE_XS", "abc")] "RESIZE_SIZE_XS") = true
    ∧ jsParseInt (lookupRaw [("RESIZE_SIZE_XS", "abc")] "RESIZE_SIZE_XS") = none
    ∧ (resize [("RESIZE_SIZE_XS", "abc")]).sizes.xs = 280
    ∧ jwtExpirationInterval none
        = Except.error "JWT_EXPIRATION_MINUTES not found. Please fill this value in your .env file to indicate the life duration of JSON web token."
    ∧ port none = Except.ok none := by
  refine ⟨by decide, by decide, by decide, rfl, rfl⟩

/-- C1 (amended): only the JWT expiration and the port hard-fail on a
present non-parseable numeric value; the five resize size buckets and the
two upload numerics silently fall back to their named defaults whenever
parsing yields NaN (in particular when the value is present but not
parseable); an absent JWT expiration is also a hard failure, and an absent
port stays absent instead of defaulting. -/
theorem C1_numeric_coercion :
    (∀ v : Option String, jsStrTruthy v = true → jsParseInt v = none →
        jwtExpirationInterval v
          = Except.error "JWT_EXPIRATION_MINUTES bad value. Expiration value must be a duration expressed as a number"
        ∧ port v = Except.error "PORT bad value. Port value must be a number")
    ∧ jwtExpirationInterval none
        = Except.error "JWT_EXPIRATION_MINUTES not found. Please fill this value in your .env file to indicate the life duration of JSON web token."
    ∧ port none = Except.ok none
    ∧ (∀ raw : RawEnv,
        (jsParseInt (lookupRaw raw "RESIZE_SIZE_XS") = none → (resize raw).sizes.xs = 280)
        ∧ (jsParseInt (lookupRaw raw "RESIZE_SIZE_SM") = none → (resize raw).sizes.sm = 320)
        ∧ (jsParseInt (lookupRaw raw "RESIZE_SIZE_MD") = none → (resize raw).sizes.md = 768)
        ∧ (jsParseInt (lookupRaw raw "RESIZE_SIZE_LG") = none → (resize raw).sizes.lg = 1024)
        ∧ (jsParseInt (lookupRaw raw "RESIZE_SIZE_XL") = none → (resize raw).sizes.xl = 1366))
    ∧ (∀ (raw : RawEnv) (cwd base : String),
        (jsParseInt (lookupRaw raw "UPLOAD_MAX_FILE_SIZE") = none →
            (upload raw cwd base).filesize = 1000000)
        ∧ (jsParseInt (lookupRaw raw "UPLOAD_MAX_FILES") = none →
            (upload raw cwd base).maxFiles = 5)) := by
  refine ⟨?_, rfl, rfl, ?_, ?_⟩
  · intro v h1 h2
    constructor
    · simp [jwtExpirationInterval, h1, h2]
    · simp [port, h1, h2]
  · intro raw
    refine ⟨fun h => ?_, fun h => ?_, fun h => ?_, fun h => ?_, fun h => ?_⟩ <;>
      simp [resize, jsOrNum, h]
  · intro raw cwd base
    have h1 : lookupRaw (uploadParams raw) "UPLOAD_MAX_FILE_SIZE"
        = lookupRaw raw "UPLOAD_MAX_FILE_SIZE" :=
      lookupRaw_uploadParams raw "UPLOAD_MAX_FILE_SIZE" (by decide)
    have h2 : lookupRaw (uploadParams raw) "UPLOAD_MAX_FILES"
        = lookupRaw raw "UPLOAD_MAX_FILES" :=
      lookupRaw_uploadParams raw "UPLOAD_MAX_FILES" (by decide)
    constructor
    · intro h
      simp [upload, h1, h, jsOrNum]
    · intro h
      simp [upload, h2, h, jsOrNum]

/-- C1 witness: concrete non-parseable values for the three behaviors. -/
theorem C1_numeric_coercion_witness :
    jwtExpirationInterval (some "abc")
      = Except.error "JWT_EXPIRATION_MINUTES bad value. Expiration value must be a duration expressed as a number"
    ∧ (resize [("RESIZE_SIZE_SM", "oops")]).sizes.sm = 320
    ∧ (upload [("UPLOAD_MAX_FILES", "zzz")] "" "").maxFiles = 5 :=
  ⟨(C1_numeric_coercion.1 (some "abc") (by decide) (by decide)).1,
   (C1_numeric_coercion.2.2.2.1 [("RESIZE_SIZE_SM", "oops")]).2.1 (by decide),
   (C1_numeric_coercion.2.2.2.2 [("UPLOAD_MAX_FILES", "zzz")] "" "").2 (by decide)⟩

/-- C2 counterexample: with both database flags set to the raw string 0 in
the development environment, the resolved sync and log flags are true, not
false, because they are derived by string truthiness, not by integer
parsing. -/
theorem C2_counterexample_string_truthiness :
    (typeorm rawDbSample ENVIRONMENT.development "cwd" "dist").map
        (fun c => (c.sync, c.log))
      = Except.ok (true, true) := by
  rfl

/-- C2 (amended): the resize and HTTPS activation flags are derived by
parsing the raw value as an integer and testing non-zero (absent and the
string 0 give false); the database sync and log flags are instead derived
by string truthiness, so any non-empty raw value, the string 0 included,
gives true, with sync forced to false in production. -/
theorem C2_boolean_flags :
    (∀ raw : RawEnv,
        (resize raw).isActive = jsNumTruthy (jsParseInt (lookupRaw raw "RESIZE_IS_ACTIVE")))
    ∧ (∀ (a k c : Option String) (fs : Option String → Bool) (cfg : SslConfig),
        ssl a k c fs = Except.ok cfg → cfg.isActive = jsNumTruthy (jsParseInt a))
    ∧ jsNumTruthy (jsParseInt (some "0")) = false
    ∧ jsNumTruthy (jsParseInt none) = false
    ∧ (∀ (raw : RawEnv) (env : ENVIRONMENT) (cwd base : String) (cfg : TypeormConfig),
        typeorm raw env cwd base = Except.ok cfg →
          cfg.log = jsStrTruthy (lookupRaw raw "TYPEORM_LOG")
          ∧ (env ≠ ENVIRONMENT.production →
              cfg.sync = jsStrTruthy (lookupRaw raw "TYPEORM_SYNC")))
    ∧ jsStrTruthy (some "0") = true := by
  refine ⟨fun raw => rfl, ?_, by decide, rfl, ?_, by decide⟩
  · intro a k c fs cfg h
    unfold ssl at h
    by_cases c1 : jsNumTruthy (jsParseInt a) = true ∧ fs k = false
    · rw [if_pos c1] at h; exact absurd h (by simp)
    rw [if_neg c1] at h
    by_cases c2 : jsNumTruthy (jsParseInt a) = true ∧ fs c = false
    · rw [if_pos c2] at h; exact absurd h (by simp)
    rw [if_neg c2, Except.ok.injEq] at h
    subst h
    rfl
  · intro raw env cwd base cfg h
    obtain ⟨hs, hl, _⟩ := typeorm_ok_fields raw env cwd base cfg h
    refine ⟨hl, fun hne => ?_⟩
    rw [hs, if_neg hne]

/-- C2 witness: the database flags of the resolved sample are the string
truthiness of the raw 0 values, and an inactive TLS result carries the
integer-parsed flag of the raw 0. -/
theorem C2_boolean_flags_witness :
    (TypeormConfig.mk (some "mysql") "default" (some "3306") (some "localhost")
        (some "db") (some "root") (some "pw") true true
        "cwd/dist/api/models/**/*.js" "cwd/dist/migrations/**/*.js"
        "cwd/dist/api/subscribers/**/*.subscriber.js").log
      = jsStrTruthy (lookupRaw rawDbSample "TYPEORM_LOG")
    ∧ (SslConfig.mk false none none).isActive = jsNumTruthy (jsParseInt (some "0")) :=
  ⟨(C2_boolean_flags.2.2.2.2.1 rawDbSample ENVIRONMENT.development "cwd" "dist" _ (by rfl)).1,
   C2_boolean_flags.2.1 (some "0") none none (fun _ => false) _ (by rfl)⟩

/-- C5: with every other required database key present and the password
absent, resolution succeeds in the test environment with an absent
password, and fails with the password-missing error in every other
environment. -/
theorem C5_pwd_conditional :
    ∀ (raw : RawEnv) (cwd base : String),
      jsStrTruthy (lookupRaw raw "TYPEORM_TYPE") = true →
      jsStrTruthy (lookupRaw raw "TYPEORM_PORT") = true →
      jsStrTruthy (lookupRaw raw "TYPEORM_HOST") = true →
      jsStrTruthy (lookupRaw raw "TYPEORM_DB") = true →
      jsStrTruthy (lookupRaw raw "TYPEORM_USER") = true →
      lookupRaw raw "TYPEORM_PWD" = none →
      (typeorm raw ENVIRONMENT.test cwd base).map (fun c => c.pwd) = Except.ok none
      ∧ (∀ env2 : ENVIRONMENT, env2 ≠ ENVIRONMENT.test →
          typeorm raw env2 cwd base
            = Except.error "TYPEORM_PWD not found. Please fill it in your .env file to define the password of the database.") := by
  intro raw cwd base h1 h2 h3 h4 h5 h6
  have e1 := lookupRaw_typeormParams raw "TYPEORM_TYPE" (by decide)
  have e2 := lookupRaw_typeormParams raw "TYPEORM_PORT" (by decide)
  have e3 := lookupRaw_typeormParams raw "TYPEORM_HOST" (by decide)
  have e4 := lookupRaw_typeormParams raw "TYPEORM_DB" (by decide)
  have e5 := lookupRaw_typeormParams raw "TYPEORM_USER" (by decide)
  have e6 := lookupRaw_typeormParams raw "TYPEORM_PWD" (by decide)
  have hn : jsStrTruthy none = false := rfl
  constructor
  · simp [typeorm, e1, e2, e3, e4, e5, e6, h1, h2, h3, h4, h5, h6, hn, Except.map]
  · intro env2 hne
    simp [typeorm, e1, e2, e3, e4, e5, e6, h1, h2, h3, h4, h5, h6, hn, hne]

/-- C5 witness: the sample environment without a password resolves in test
with an absent password and fails in production. -/
theorem C5_pwd_conditional_witness :
    (typeorm rawDbNoPwd ENVIRONMENT.test "cwd" "dist").map (fun c => c.pwd)
      = Except.ok none
    ∧ typeorm rawDbNoPwd ENVIRONMENT.production "cwd" "dist"
        = Except.error "TYPEORM_PWD not found. Please fill it in your .env file to define the password of the database." := by
  have h := C5_pwd_conditional rawDbNoPwd "cwd" "dist" (by decide) (by decide)
    (by decide) (by decide) (by decide) (by decide)
  exact ⟨h.1, h.2 ENVIRONMENT.production (by decide)⟩

/-- C6: a non-empty CONTENT_TYPE outside the closed vocabulary fails with
the error listing the vocabulary; an absent or empty CONTENT_TYPE resolves
to application/json. -/
theorem C6_content_type :
    (∀ s : String, s ≠ "" → CONTENT_MIME_TYPE.contains s = false →
        contentType (some s)
          = Except.error ("CONTENT_TYPE bad value. Supported Content-Type must be one of "
              ++ String.intercalate "," CONTENT_MIME_TYPE))
    ∧ contentType none = Except.ok "application/json"
    ∧ contentType (some "") = Except.ok "application/json" := by
  refine ⟨?_, rfl, rfl⟩
  intro s hs hmem
  have hm2 : s ∉ CONTENT_MIME_TYPE := by simpa using hmem
  simp [contentType, jsStrTruthy, hs, hm2]

/-- C6 witness: text/plain is rejected with the vocabulary listing. -/
theorem C6_content_type_witness :
    contentType (some "text/plain")
      = Except.error ("CONTENT_TYPE bad value. Supported Content-Type must be one of "
          ++ String.intercalate "," CONTENT_MIME_TYPE) :=
  C6_content_type.1 "text/plain" (by decide) (by decide)

theorem filterMap_expand_eq_spec (l : List String) :
    (l.filterMap (fun k => (mimes.find? (fun m => m.1 = k)).map (fun m => m.2))).flatten
      = specExpandWildcards l := by
  induction l with
  | nil => rfl
  | cons t ts ih =>
    simp only [specExpandWildcards] at ih ⊢
    cases hf : mimes.find? (fun m => m.1 = t) with
    | none =>
      have hnm : t ∉ mimes.map (fun m => m.1) := by
        rw [List.find?_eq_none] at hf
        intro hmem
        obtain ⟨m, hm, hmt⟩ := List.mem_map.mp hmem
        exact hf m hm (by simp [hmt])
      simp [List.filterMap_cons, List.filter_cons, hf, hnm, ih]
    | some m =>
      have hm2 : t ∈ mimes.map (fun m2 => m2.1) := by
        have hmem := List.mem_of_find?_eq_some hf
        have hpt := List.find?_some hf
        simp only [decide_eq_true_eq] at hpt
        exact List.mem_map.mpr ⟨m, hmem, hpt⟩
      simp [List.filterMap_cons, List.filter_cons, hf, hm2, ih]

/-- C7: the accepted-MIME set is the ordered union of the expansions of the
recognized category tokens of UPLOAD_WILDCARDS (unrecognized tokens are
dropped, with no failure possible since the resolver is total); with the
key absent, all five categories are expanded; for IMAGE,BOGUS the result
is exactly the IMAGE expansion. -/
theorem C7_wildcard_expansion :
    (∀ (raw : RawEnv) (cwd base : String) (s : String),
        lookupRaw (uploadParams raw) "UPLOAD_WILDCARDS" = some s → s ≠ "" →
        (upload raw cwd base).wildcards = specExpandWildcards (jsSplitComma s))
    ∧ (∀ (raw : RawEnv) (cwd base : String),
        lookupRaw (uploadParams raw) "UPLOAD_WILDCARDS" = none →
        (upload raw cwd base).wildcards
          = AUDIO_MIME_TYPE ++ ARCHIVE_MIME_TYPE ++ DOCUMENT_MIME_TYPE
            ++ IMAGE_MIME_TYPE ++ VIDEO_MIME_TYPE)
    ∧ (upload [("UPLOAD_WILDCARDS", "IMAGE,BOGUS")] "" "").wildcards = IMAGE_MIME_TYPE := by
  refine ⟨?_, ?_, by decide⟩
  · intro raw cwd base s hs hne
    have h := filterMap_expand_eq_spec (jsSplitComma s)
    simp [upload, hs, hne, h]
  · intro raw cwd base hs
    simp [upload, hs]
    rfl

/-- C7 witness: the concrete IMAGE,BOGUS input and the absent-key default. -/
theorem C7_wildcard_expansion_witness :
    (upload [("UPLOAD_WILDCARDS", "IMAGE,BOGUS")] "" "").wildcards
      = specExpandWildcards (jsSplitComma "IMAGE,BOGUS")
    ∧ (upload [] "" "").wildcards
        = AUDIO_MIME_TYPE ++ ARCHIVE_MIME_TYPE ++ DOCUMENT_MIME_TYPE
          ++ IMAGE_MIME_TYPE ++ VIDEO_MIME_TYPE :=
  ⟨C7_wildcard_expansion.1 [("UPLOAD_WILDCARDS", "IMAGE,BOGUS")] "" "" "IMAGE,BOGUS"
      (by decide) (by decide),
   C7_wildcard_expansion.2.1 [] "" "" (by decide)⟩

/-- C8: TLS resolution fails exactly when the activation flag parses
non-zero and the key path or the certificate path fails the existence
check; with the flag zero or absent the file system is never consulted and
the result is inactive with null key and certificate. -/
theorem C8_tls_dependent_resource :
    (∀ (a k c : Option String) (fs : Option String → Bool) (e : String),
        ssl a k c fs = Except.error e →
        jsNumTruthy (jsParseInt a) = true ∧ (fs k = false ∨ fs c = false))
    ∧ (∀ (a k c : Option String) (fs : Option String → Bool),
        jsNumTruthy (jsParseInt a) = true → (fs k = false ∨ fs c = false) →
        ssl a k c fs
          = Except.error "HTTPS_KEY bad value or private key not found. Please check your .env file configuration."
        ∨ ssl a k c fs
          = Except.error "HTTPS_CERT bad value or SSL certificate not found. Please check your .env file configuration.")
    ∧ (∀ (a k c : Option String) (fs fs2 : Option String → Bool),
        jsNumTruthy (jsParseInt a) = false →
        ssl a k c fs = ssl a k c fs2
        ∧ ssl a k c fs = Except.ok (SslConfig.mk false none none)) := by
  refine ⟨?_, ?_, ?_⟩
  · intro a k c fs e h
    unfold ssl at h
    by_cases c1 : jsNumTruthy (jsParseInt a) = true ∧ fs k = false
    · exact ⟨c1.1, Or.inl c1.2⟩
    rw [if_neg c1] at h
    by_cases c2 : jsNumTruthy (jsParseInt a) = true ∧ fs c = false
    · exact ⟨c2.1, Or.inr c2.2⟩
    rw [if_neg c2] at h
    exact absurd h (by simp)
  · intro a k c fs h1 h2
    unfold ssl
    rcases h2 with h2 | h2
    · left
      rw [if_pos ⟨h1, h2⟩]
    · by_cases hk : fs k = false
      · left
        rw [if_pos ⟨h1, hk⟩]
      · right
        rw [if_neg (fun hc => hk hc.2), if_pos ⟨h1, h2⟩]
  · intro a k c fs fs2 h
    constructor <;> simp [ssl, h]

/-- C8 witness: an active flag with a failing existence check satisfies the
failure characterization, and a zero flag gives the inactive result with
null paths despite invalid raw paths. -/
theorem C8_tls_dependent_resource_witness :
    (ssl (some "1") (some "/k") (some "/c") (fun _ => false)
        = Except.error "HTTPS_KEY bad value or private key not found. Please check your .env file configuration."
      ∨ ssl (some "1") (some "/k") (some "/c") (fun _ => false)
        = Except.error "HTTPS_CERT bad value or SSL certificate not found. Please check your .env file configuration.")
    ∧ ssl (some "0") (some "bad") (some "bad") (fun _ => false)
        = Except.ok (SslConfig.mk false none none) :=
  ⟨C8_tls_dependent_resource.2.1 (some "1") (some "/k") (some "/c") (fun _ => false)
      (by decide) (Or.inl rfl),
   (C8_tls_dependent_resource.2.2 (some "0") (some "bad") (some "bad") (fun _ => false)
      (fun _ => true) (by decide)).2⟩

/-- C10: in production the resolved sync flag is false whatever the raw
TYPEORM_SYNC is; in every other environment it is the string truthiness of
the raw TYPEORM_SYNC value. -/
theorem C10_sync_production :
    (∀ (raw : RawEnv) (cwd base : String) (cfg : TypeormConfig),
        typeorm raw ENVIRONMENT.production cwd base = Except.ok cfg → cfg.sync = false)
    ∧ (∀ (raw : RawEnv) (env : ENVIRONMENT) (cwd base : String) (cfg : TypeormConfig),
        env ≠ ENVIRONMENT.production →
        typeorm raw env cwd base = Except.ok cfg →
        cfg.sync = jsStrTruthy (lookupRaw raw "TYPEORM_SYNC")) := by
  constructor
  · intro raw cwd base cfg h
    have hs := (typeorm_ok_fields raw ENVIRONMENT.production cwd base cfg h).1
    simpa using hs
  · intro raw env cwd base cfg hne h
    have hs := (typeorm_ok_fields raw env cwd base cfg h).1
    rwa [if_neg hne] at hs

/-- C10 witness: with the raw sync value 1, production resolves sync to
false while development resolves it to true. -/
theorem C10_sync_production_witness :
    (TypeormConfig.mk (some "mysql") "default" (some "3306") (some "localhost")
        (some "db") (some "root") (some "pw") false false
        "cwd//api/models/**/*.js" "cwd//migrations/**/*.js"
        "cwd//api/subscribers/**/*.subscriber.js").sync = false
    ∧ (TypeormConfig.mk (some "mysql") "default" (some "3306") (some "localhost")
        (some "db") (some "root") (some "pw") true false
        "cwd/dist/api/models/**/*.js" "cwd/dist/migrations/**/*.js"
        "cwd/dist/api/subscribers/**/*.subscriber.js").sync
        = jsStrTruthy (lookupRaw rawDbSyncOn "TYPEORM_SYNC") :=
  ⟨C10_sync_production.1 rawDbSyncOn "cwd" "" _ (by rfl),
   C10_sync_production.2 rawDbSyncOn ENVIRONMENT.development "cwd" "dist" _
     (by decide) (by rfl)⟩

/-- C3 witness: the characterization evaluated at the A_TYPEORM key. -/
theorem C3_grouped_key_extraction_witness :
    lookupRaw (typeormParams [("A_TYPEORM", "x")]) "A_TYPEORM"
      = (if containsSub "A_TYPEORM" "TYPEORM" = true
         then lookupRaw [("A_TYPEORM", "x")] "A_TYPEORM" else none) :=
  C3_grouped_key_extraction.1 [("A_TYPEORM", "x")] "A_TYPEORM"

/-- C9 witness: the two shapes at production and test. -/
theorem C9_base_path_two_shapes_witness :
    baseOf ENVIRONMENT.production
      = (if ENVIRONMENT.production = ENVIRONMENT.development
            ∨ ENVIRONMENT.production = ENVIRONMENT.test then "dist" else "")
    ∧ baseOf ENVIRONMENT.test
      = (if ENVIRONMENT.test = ENVIRONMENT.development
            ∨ ENVIRONMENT.test = ENVIRONMENT.test then "dist" else "") :=
  ⟨C9_base_path_two_shapes ENVIRONMENT.production,
   C9_base_path_two_shapes ENVIRONMENT.test⟩
